import Mathlib

/-!
Shallow embedding of `block-tester.go` (repository rolandshoemaker/tor-va-tests).

The program probes a list of domain names over two network paths (a plain path
and a SOCKS5-proxied "tor" path).  Network interactions (DNS exchange, HTTP
request construction, HTTP round trip, response-body read, the random source
for proxy credentials, SOCKS5 dialer construction) are modelled as explicit
environment records supplying each fallible step's outcome; the Go functions
become total Lean functions over those environments.  Durations are natural
numbers (nanosecond counts).  A Go panic is modelled as `none` in an `Option`
result: the surrounding computation has no normal value at all.
-/

/-- Go struct `basicResult` (block-tester.go lines 43-49): the per-path
outcome of one resolve-then-fetch probe. -/
structure basicResult where
  LookupTook : Nat
  HTTPConnectionTook : Nat
  Error : String
  Page : String
  IP : String
  deriving Repr, DecidableEq

/-- The zero value `&basicResult{}` allocated at the top of `processName`. -/
def basicResult.init : basicResult :=
  { LookupTook := 0, HTTPConnectionTook := 0, Error := "", Page := "", IP := "" }

/-- Go struct `result` (lines 51-56).  The Go fields are pointers
(`*basicResult`), so they are modelled as `Option basicResult`, `none`
standing for a nil pointer. -/
structure result where
  Name : String
  Tor : Option basicResult
  Plain : Option basicResult
  deriving Repr, DecidableEq

/-- A DNS resource record as `processName` inspects it: either an A record
(carrying the string rendering `a.A.String()` of its address) or any other
record type, which the type switch `answer.(*dns.A)` skips. -/
inductive RR where
  | A (addr : String)
  | other
  deriving Repr, DecidableEq

/-- The slice of answers of a DNS response message (`resp.Answer`). -/
structure DnsMsg where
  Answer : List RR
  deriving Repr, DecidableEq

/-- Environment of one `processName` invocation: the outcome of each external
interaction the probe performs, in program order.  `readAll` models
`ioutil.ReadAll` on the response body: the bytes read so far paired with an
optional read error. -/
structure ProbeEnv where
  exchange : Except String DnsMsg
  lookupDur : Nat
  newRequest : Except String Unit
  doResult : Except String Unit
  connDur : Nat
  readAll : String × Option String

/-- The loop over `resp.Answer` (lines 83-88): `r.IP` after the loop is the
address of the first answer that is an A record (the loop breaks there), and
stays `""` when no answer is an A record. -/
def firstA : List RR → String
  | [] => ""
  | RR.A addr :: _ => addr
  | RR.other :: rest => firstA rest

/-- Lines 93-113 of `processName`: build the HTTP request for
`http://<ip>/` (virtual host set to the probed name), perform it, and if
`grabPage` is set read the body.  `HTTPConnectionTook` is assigned after
`client.Do` returns, so it is left at its prior value when request
construction fails.  A body-read failure records the error but still stores
the bytes read so far in `Page`. -/
def httpPhase (env : ProbeEnv) (grabPage : Bool) (r0 : basicResult) : basicResult :=
  match env.newRequest with
  | .error e => { r0 with Error := e }
  | .ok _ =>
    match env.doResult with
    | .error e => { r0 with HTTPConnectionTook := env.connDur, Error := e }
    | .ok _ =>
      if grabPage then
        match env.readAll with
        | (body, some e) => { r0 with HTTPConnectionTook := env.connDur, Error := e, Page := body }
        | (body, none) => { r0 with HTTPConnectionTook := env.connDur, Page := body }
      else { r0 with HTTPConnectionTook := env.connDur }

/-- Lines 66-92 of `processName`, stopped at the end of the resolution step
(before any HTTP work): the outcome as it stands once the DNS answer has been
examined. -/
def resolutionPhase (env : ProbeEnv) : basicResult :=
  match env.exchange with
  | .error e => { basicResult.init with LookupTook := env.lookupDur, Error := e }
  | .ok resp =>
    if resp.Answer.length = 0 then
      { basicResult.init with LookupTook := env.lookupDur, Error := "No addresses found" }
    else if firstA resp.Answer = "" then
      { basicResult.init with LookupTook := env.lookupDur, Error := "Malformed DNS response" }
    else
      { basicResult.init with LookupTook := env.lookupDur, IP := firstA resp.Answer }

/-- Go method `tester.processName` (lines 66-115): resolve the name, then on
success fetch `http://<ip>/`; every failure is recorded in the returned
outcome's `Error` field and returns immediately (the `return` statements on
lines 77, 81, 91, 97, 104). -/
def processName (env : ProbeEnv) (grabPage : Bool) : basicResult :=
  match env.exchange with
  | .error e => { basicResult.init with LookupTook := env.lookupDur, Error := e }
  | .ok resp =>
    if resp.Answer.length = 0 then
      { basicResult.init with LookupTook := env.lookupDur, Error := "No addresses found" }
    else if firstA resp.Answer = "" then
      { basicResult.init with LookupTook := env.lookupDur, Error := "Malformed DNS response" }
    else
      httpPhase env grabPage
        { basicResult.init with LookupTook := env.lookupDur, IP := firstA resp.Answer }

/-- The credential pair `&proxy.Auth{User: randStr, Password: randStr}`. -/
structure CredPair where
  user : String
  password : String
  deriving Repr, DecidableEq

/-- The SOCKS5 dialer configuration that `proxy.SOCKS5` is asked for in
`newDialer` (network, proxy address, authentication, dial timeout in
seconds). -/
structure Dialer where
  network : String
  addr : String
  auth : CredPair
  timeoutSeconds : Nat
  deriving Repr, DecidableEq

/-- One hexadecimal digit as `fmt.Sprintf("%X", _)` renders it (uppercase). -/
def hexDigitUpper (n : Nat) : Char :=
  if n < 10 then Char.ofNat (48 + n) else Char.ofNat (55 + n)

/-- One byte rendered as two uppercase hexadecimal digits. -/
def hexByteUpper (b : Nat) : List Char :=
  [hexDigitUpper (b / 16), hexDigitUpper (b % 16)]

/-- A byte slice rendered by `fmt.Sprintf("%X", b)`: the bytes in order, each
as two uppercase hexadecimal digits, no separators. -/
def hexBytesUpper : List Nat → List Char
  | [] => []
  | b :: bs => hexByteUpper b ++ hexBytesUpper bs

/-- The string produced by `fmt.Sprintf("%X", b)` on a byte slice. -/
def sprintfX (bs : List Nat) : String :=
  String.mk (hexBytesUpper bs)

/-- Environment of one `newDialer` invocation: `src n` is the outcome of
`rand.Read` on a buffer of `n` bytes (error, or the bytes that filled the
buffer), and `socksErr` is the error, if any, from `proxy.SOCKS5`. -/
structure DialerEnv where
  src : Nat → Except String (List Nat)
  socksErr : Option String

/-- Go function `randomString` (lines 20-27): request 16 random bytes and
hex-encode them with `%X`; a read error panics (modelled as `none`). -/
def randomString (src : Nat → Except String (List Nat)) : Option String :=
  match src 16 with
  | .error _ => none
  | .ok b => some (sprintfX b)

/-- Go function `newDialer` (lines 29-41): a SOCKS5 dialer to 127.0.0.1:9150
over tcp, authenticated with a fresh random hex string used as both username
and password, with a 10 second dial timeout; a failure of `randomString` or
of `proxy.SOCKS5` panics (modelled as `none`). -/
def newDialer (env : DialerEnv) : Option Dialer :=
  match randomString env.src with
  | none => none
  | some randStr =>
    match env.socksErr with
    | some _ => none
    | none =>
      some { network := "tcp", addr := "127.0.0.1:9150",
             auth := { user := randStr, password := randStr },
             timeoutSeconds := 10 }

/-- The dialer built for the i-th tor-path probe of a run, when the process
random source answers the i-th `rand.Read` call with `tape i` and
`proxy.SOCKS5` succeeds.  Each `tester.process` invocation calls `newDialer`
exactly once (line 123), so distinct probes consume distinct positions of the
tape. -/
def probeDialer (tape : Nat → List Nat) (i : Nat) : Option Dialer :=
  newDialer { src := fun _ => Except.ok (tape i), socksErr := none }

/-- Environment of one `tester.process` invocation: the network environments
of its two concurrent probes, plus the random bytes and SOCKS5 outcome
consumed by its `newDialer` call. -/
structure NameEnv where
  plainEnv : ProbeEnv
  torEnv : ProbeEnv
  randRead : Except String (List Nat)
  socksErr : Option String

/-- Go method `tester.process` (lines 117-143): launch the plain probe
(`grabPage = false`) and, on a freshly built proxied client, the tor probe
(`grabPage = true`); `wg.Wait()` joins both before the combined result is
sent, so both pointer fields are set when it is.  A `newDialer` panic kills
the whole process (`none`).  The one-line `:)` / `:(` progress print is a
side effect with no bearing on the data and is not modelled. -/
def tester.process (env : NameEnv) (name : String) : Option result :=
  match newDialer { src := fun _ => env.randRead, socksErr := env.socksErr } with
  | none => none
  | some _proxyDialer =>
    some { Name := name,
           Plain := some (processName env.plainEnv false),
           Tor := some (processName env.torEnv true) }

/-- Sequential composition of `tester.process` over a list of names: the
results, in processing order, or `none` if any invocation panics. -/
def processAll (env : String → NameEnv) : List String → Option (List result)
  | [] => some []
  | n :: rest =>
    match tester.process (env n) n with
    | none => none
    | some r =>
      match processAll env rest with
      | none => none
      | some rs => some (r :: rs)

/-- Go method `tester.run` (lines 145-157): `workers` goroutines drain the
closed names channel, each name going through `tester.process` exactly once;
`run` returns when all workers have returned.  With zero workers nothing is
processed; with at least one worker every queued name is processed exactly
once.  The list is given in queue order, standing in for any completion
order (the facts proved about it are invariant under permutation). -/
def tester.run (env : String → NameEnv) (workers : Nat) (names : List String) :
    Option (List result) :=
  if workers = 0 then some [] else processAll env names

/-- A Go channel as `main` observes it: its buffered contents and whether it
has been closed. -/
structure Channel (α : Type) where
  buf : List α
  closed : Bool
  deriving Repr

/-- A `for _ := range ch` loop over a channel whose producers have all
returned: it yields the buffered items and terminates if and only if the
channel has been closed; over an unclosed channel it blocks forever on the
next receive once the buffer is drained (`none`). -/
def rangeDrain {α : Type} (ch : Channel α) : Option (List α) :=
  if ch.closed then some ch.buf else none

/-- Go `strings.Split(s, "\n")` on a character list: the maximal runs of
characters between newline characters, one entry more than there are
newlines, with no trimming and no filtering. -/
def splitNl : List Char → List (List Char)
  | [] => [[]]
  | c :: cs =>
    if c = '\n' then [] :: splitNl cs
    else
      match splitNl cs with
      | [] => [[c]]
      | h :: t => (c :: h) :: t

/-- Lines 176-181 of `main`: the names-file contents split on `"\n"`. -/
def loadNames (contents : String) : List String :=
  (splitNl contents.data).map String.mk

/-- Lines 182-187 of `main`: every split entry is sent to the names channel
(capacity = entry count, so no send blocks), and the channel is then
closed. -/
def loadAndFill (contents : String) : Channel String :=
  { buf := loadNames contents, closed := true }

/-- The state of `t.results` after `t.run(*workers)` returns (line 189): it
holds one combined result per processed name, and — since no line of the
program ever closes `t.results` — it is still open. -/
def runModel (env : String → NameEnv) (workers : Nat) (names : List String) :
    Option (Channel result) :=
  match tester.run env workers names with
  | none => none
  | some rs => some { buf := rs, closed := false }

/-- A probe environment whose DNS exchange fails with a transport error. -/
def dnsFailEnv : ProbeEnv :=
  { exchange := Except.error "read tcp 8.8.8.8:53: i/o timeout",
    lookupDur := 1, newRequest := Except.ok (), doResult := Except.ok (),
    connDur := 0, readAll := ("", none) }

/-- A per-name environment in which both probes fail at DNS and the dialer
construction succeeds on sixteen zero bytes. -/
def demoNameEnv : NameEnv :=
  { plainEnv := dnsFailEnv, torEnv := dnsFailEnv,
    randRead := Except.ok (List.replicate 16 0), socksErr := none }

/-- A probe environment: resolution succeeds but the HTTP round trip fails. -/
def envConnRefused : ProbeEnv :=
  { exchange := Except.ok { Answer := [RR.A "93.184.216.34"] }, lookupDur := 5,
    newRequest := Except.ok (), doResult := Except.error "connection refused",
    connDur := 7, readAll := ("", none) }

/-- A probe environment whose DNS response has zero answers. -/
def envNoAnswers : ProbeEnv :=
  { exchange := Except.ok { Answer := [] }, lookupDur := 3,
    newRequest := Except.ok (), doResult := Except.ok (),
    connDur := 0, readAll := ("", none) }

/-- A probe environment whose DNS response has answers but no A record. -/
def envNoARecords : ProbeEnv :=
  { exchange := Except.ok { Answer := [RR.other] }, lookupDur := 3,
    newRequest := Except.ok (), doResult := Except.ok (),
    connDur := 0, readAll := ("", none) }

/-- A probe environment in which everything succeeds until the body read,
which fails after seven bytes. -/
def readFailEnv : ProbeEnv :=
  { exchange := Except.ok { Answer := [RR.A "10.0.0.1"] }, lookupDur := 2,
    newRequest := Except.ok (), doResult := Except.ok (),
    connDur := 9, readAll := ("partial", some "unexpected EOF") }

/-- A dialer environment whose random source yields sixteen zero bytes. -/
def demoDialerEnv : DialerEnv :=
  { src := fun _ => Except.ok (List.replicate 16 0), socksErr := none }

/-- Boolean check that a fallible step's error message, if any, is
non-empty (Go error strings are non-empty in practice). -/
def errNonemptyB {α : Type} : Except String α → Bool
  | .error e => !(e == "")
  | .ok _ => true

/-- Boolean check that a body-read error message, if any, is non-empty. -/
def readErrNonemptyB : Option String → Bool
  | some e => !(e == "")
  | none => true

/-- Well-formedness of a probe environment: every error message a step can
report is a non-empty string. -/
def ProbeEnv.wf (env : ProbeEnv) : Bool :=
  errNonemptyB env.exchange && errNonemptyB env.newRequest &&
    errNonemptyB env.doResult && readErrNonemptyB env.readAll.2

/-- Well-formedness of a DNS answer list: the string rendering of an A
record's address is never empty (`net.IP.String` never returns `""`). -/
def answersWF (l : List RR) : Bool :=
  l.all fun r =>
    match r with
    | RR.A a => !(a == "")
    | RR.other => true

/-- The HTTP phase never touches the `IP` field collected at resolution. -/
theorem httpPhase_IP (env : ProbeEnv) (g : Bool) (r0 : basicResult) :
    (httpPhase env g r0).IP = r0.IP := by
  unfold httpPhase
  cases env.newRequest with
  | error e => rfl
  | ok u =>
    cases env.doResult with
    | error e => rfl
    | ok u =>
      cases g with
      | false => rfl
      | true =>
        rcases henv : env.readAll with ⟨body, oe⟩
        cases oe <;> simp

/-- The HTTP phase never touches the `LookupTook` field. -/
theorem httpPhase_LookupTook (env : ProbeEnv) (g : Bool) (r0 : basicResult) :
    (httpPhase env g r0).LookupTook = r0.LookupTook := by
  unfold httpPhase
  cases env.newRequest with
  | error e => rfl
  | ok u =>
    cases env.doResult with
    | error e => rfl
    | ok u =>
      cases g with
      | false => rfl
      | true =>
        rcases henv : env.readAll with ⟨body, oe⟩
        cases oe <;> simp

/-- A probe whose DNS exchange fails records the error and nothing else. -/
theorem processName_exchange_error (env : ProbeEnv) (g : Bool) (e : String)
    (hx : env.exchange = Except.error e) :
    processName env g =
      { LookupTook := env.lookupDur, HTTPConnectionTook := 0,
        Error := e, Page := "", IP := "" } := by
  simp [processName, hx, basicResult.init]

/-- A probe whose DNS response is empty reports "No addresses found". -/
theorem processName_no_answers (env : ProbeEnv) (g : Bool) (resp : DnsMsg)
    (hx : env.exchange = Except.ok resp) (hz : resp.Answer = []) :
    processName env g =
      { LookupTook := env.lookupDur, HTTPConnectionTook := 0,
        Error := "No addresses found", Page := "", IP := "" } := by
  simp [processName, hx, hz, basicResult.init]

/-- A probe whose DNS response has answers but no usable A record reports
"Malformed DNS response". -/
theorem processName_malformed (env : ProbeEnv) (g : Bool) (resp : DnsMsg)
    (hx : env.exchange = Except.ok resp) (hnz : resp.Answer ≠ [])
    (hip : firstA resp.Answer = "") :
    processName env g =
      { LookupTook := env.lookupDur, HTTPConnectionTook := 0,
        Error := "Malformed DNS response", Page := "", IP := "" } := by
  simp [processName, hx, hip, basicResult.init, List.length_eq_zero, hnz]

theorem firstA_ne_empty_answers_ne_nil {l : List RR} (hip : firstA l ≠ "") :
    l ≠ [] := by
  intro h
  subst h
  exact hip rfl

/-- A probe that resolved but whose HTTP request construction fails records
the error, keeps the resolved address, and leaves the connection timing at
zero. -/
theorem processName_newRequest_error (env : ProbeEnv) (g : Bool) (resp : DnsMsg)
    (e : String) (hx : env.exchange = Except.ok resp)
    (hip : firstA resp.Answer ≠ "") (hr : env.newRequest = Except.error e) :
    processName env g =
      { LookupTook := env.lookupDur, HTTPConnectionTook := 0,
        Error := e, Page := "", IP := firstA resp.Answer } := by
  simp [processName, httpPhase, hx, hip, hr, basicResult.init,
    List.length_eq_zero, firstA_ne_empty_answers_ne_nil hip]

/-- A probe that resolved but whose HTTP round trip fails records the error,
the elapsed connection time, and the resolved address. -/
theorem processName_do_error (env : ProbeEnv) (g : Bool) (resp : DnsMsg)
    (e : String) (hx : env.exchange = Except.ok resp)
    (hip : firstA resp.Answer ≠ "") (hreq : env.newRequest = Except.ok ())
    (hdo : env.doResult = Except.error e) :
    processName env g =
      { LookupTook := env.lookupDur, HTTPConnectionTook := env.connDur,
        Error := e, Page := "", IP := firstA resp.Answer } := by
  simp [processName, httpPhase, hx, hip, hreq, hdo, basicResult.init,
    List.length_eq_zero, firstA_ne_empty_answers_ne_nil hip]

/-- A fully successful probe that does not capture the page. -/
theorem processName_ok_noPage (env : ProbeEnv) (resp : DnsMsg)
    (hx : env.exchange = Except.ok resp) (hip : firstA resp.Answer ≠ "")
    (hreq : env.newRequest = Except.ok ()) (hdo : env.doResult = Except.ok ()) :
    processName env false =
      { LookupTook := env.lookupDur, HTTPConnectionTook := env.connDur,
        Error := "", Page := "", IP := firstA resp.Answer } := by
  simp [processName, httpPhase, hx, hip, hreq, hdo, basicResult.init,
    List.length_eq_zero, firstA_ne_empty_answers_ne_nil hip]

/-- A probe that resolves, connects, and reads the body while capturing the
page: the page holds the bytes read, the error the read error if any. -/
theorem processName_ok_page (env : ProbeEnv) (resp : DnsMsg)
    (body : String) (oe : Option String)
    (hx : env.exchange = Except.ok resp) (hip : firstA resp.Answer ≠ "")
    (hreq : env.newRequest = Except.ok ()) (hdo : env.doResult = Except.ok ())
    (hread : env.readAll = (body, oe)) :
    processName env true =
      { LookupTook := env.lookupDur, HTTPConnectionTook := env.connDur,
        Error := oe.getD "", Page := body, IP := firstA resp.Answer } := by
  cases oe with
  | none =>
    simp [processName, httpPhase, hx, hip, hreq, hdo, hread, basicResult.init,
      List.length_eq_zero, firstA_ne_empty_answers_ne_nil hip]
  | some e =>
    simp [processName, httpPhase, hx, hip, hreq, hdo, hread, basicResult.init,
      List.length_eq_zero, firstA_ne_empty_answers_ne_nil hip]

/-- When no answer is an A record, the answer-scanning loop leaves the IP
empty. -/
theorem firstA_no_A : ∀ l : List RR, (∀ r ∈ l, ∀ a, r ≠ RR.A a) → firstA l = ""
  | [], _ => rfl
  | RR.A a :: _, h => absurd rfl (h (RR.A a) (by simp) a)
  | RR.other :: t, h => firstA_no_A t fun r hr => h r (by simp [hr])

/-- The answer-scanning loop picks the first A record in answer order. -/
theorem firstA_first_match : ∀ (pre : List RR) (a : String) (post : List RR),
    (∀ r ∈ pre, ∀ b, r ≠ RR.A b) → firstA (pre ++ RR.A a :: post) = a
  | [], a, post, _ => rfl
  | RR.A b :: _, _, _, h => absurd rfl (h (RR.A b) (by simp) b)
  | RR.other :: pre, a, post, h =>
    firstA_first_match pre a post fun r hr => h r (by simp [hr])

/-- A well-formed answer list renders no A-record address as the empty
string. -/
theorem answersWF_addr_ne {l : List RR} (hwf : answersWF l = true) {a : String}
    (ha : RR.A a ∈ l) : a ≠ "" := by
  have h := List.all_eq_true.mp hwf _ ha
  simpa using h

/-- A step declared well-formed reports only non-empty error messages. -/
theorem errNonemptyB_error {α : Type} {e : String} {x : Except String α}
    (hwf : errNonemptyB x = true) (hx : x = Except.error e) : e ≠ "" := by
  subst hx
  simpa [errNonemptyB] using hwf

/-- A probe that resolved keeps the first A record's address in `IP` whatever
the HTTP phase does afterwards. -/
theorem processName_IP_success (env : ProbeEnv) (g : Bool) (resp : DnsMsg)
    (hx : env.exchange = Except.ok resp) (hip : firstA resp.Answer ≠ "") :
    (processName env g).IP = firstA resp.Answer := by
  unfold processName
  rw [hx]
  simp only [List.length_eq_zero]
  rw [if_neg (firstA_ne_empty_answers_ne_nil hip), if_neg hip, httpPhase_IP]

/-- A probe run with `grabPage = false` never stores a page body. -/
theorem processName_false_Page (env : ProbeEnv) :
    (processName env false).Page = "" := by
  cases hx : env.exchange with
  | error e => rw [processName_exchange_error env false e hx]
  | ok resp =>
    by_cases hz : resp.Answer = []
    · rw [processName_no_answers env false resp hx hz]
    · by_cases hip : firstA resp.Answer = ""
      · rw [processName_malformed env false resp hx hz hip]
      · cases hr : env.newRequest with
        | error e => rw [processName_newRequest_error env false resp e hx hip hr]
        | ok u =>
          cases u
          cases hdo : env.doResult with
          | error e => rw [processName_do_error env false resp e hx hip hr hdo]
          | ok u =>
            cases u
            rw [processName_ok_noPage env resp hx hip hr hdo]

/-- The newline splitter always produces at least one segment. -/
theorem splitNl_ne_nil : ∀ l : List Char, splitNl l ≠ [] := by
  intro l
  induction l with
  | nil => simp [splitNl]
  | cons c cs ih =>
    unfold splitNl
    by_cases h : c = '\n'
    · simp [h]
    · rw [if_neg h]
      cases hs : splitNl cs with
      | nil => simp
      | cons a t => simp

/-- The newline splitter produces one segment more than there are newline
characters. -/
theorem splitNl_length : ∀ l : List Char, (splitNl l).length = l.count '\n' + 1 := by
  intro l
  induction l with
  | nil => rfl
  | cons c cs ih =>
    unfold splitNl
    by_cases h : c = '\n'
    · subst h
      simp [List.count_cons, ih]
    · rw [if_neg h]
      cases hs : splitNl cs with
      | nil => exact absurd hs (splitNl_ne_nil cs)
      | cons a t =>
        rw [hs] at ih
        simp only [List.length_cons] at ih ⊢
        rw [ih]
        simp [List.count_cons, h]

/-- The newline splitter on text that starts with a newline. -/
theorem splitNl_cons_newline (cs : List Char) :
    splitNl ('\n' :: cs) = [] :: splitNl cs := by
  simp [splitNl]

/-- The newline splitter on text that starts with any other character. -/
theorem splitNl_cons_other {c : Char} (h : c ≠ '\n') (cs : List Char)
    (a : List Char) (t : List (List Char)) (hs : splitNl cs = a :: t) :
    splitNl (c :: cs) = (c :: a) :: t := by
  simp [splitNl, h, hs]

/-- Splitting text that ends in a newline yields a final empty segment. -/
theorem splitNl_append_newline : ∀ l : List Char,
    splitNl (l ++ ['\n']) = splitNl l ++ [[]] := by
  intro l
  induction l with
  | nil => rfl
  | cons c cs ih =>
    by_cases h : c = '\n'
    · subst h
      rw [List.cons_append, splitNl_cons_newline, ih, splitNl_cons_newline,
        List.cons_append]
    · cases hs : splitNl cs with
      | nil => exact absurd hs (splitNl_ne_nil cs)
      | cons a t =>
        have hs' : splitNl (cs ++ ['\n']) = a :: (t ++ [[]]) := by
          rw [ih, hs]
          simp
        rw [List.cons_append, splitNl_cons_other h _ _ _ hs',
          splitNl_cons_other h _ _ _ hs]
        simp

/-- The last element of a list extended by one element. -/
theorem getLast_append_single {α : Type} (xs : List α) (x : α) :
    (xs ++ [x]).getLast? = some x := by
  induction xs with
  | nil => rfl
  | cons y ys ih =>
    cases ys with
    | nil => rfl
    | cons z zs => simpa [List.getLast?_cons_cons] using ih

/-- Distinct hexadecimal digit values render as distinct characters. -/
theorem hexDigitUpper_inj : ∀ a < 16, ∀ b < 16,
    hexDigitUpper a = hexDigitUpper b → a = b := by
  decide

/-- Distinct byte values render as distinct two-digit hexadecimal strings. -/
theorem hexByteUpper_inj (a b : Nat) (ha : a < 256) (hb : b < 256)
    (h : hexByteUpper a = hexByteUpper b) : a = b := by
  simp only [hexByteUpper, List.cons.injEq, and_true] at h
  obtain ⟨h1, h2⟩ := h
  have hd1 : a / 16 = b / 16 :=
    hexDigitUpper_inj _ (by omega) _ (by omega) h1
  have hd2 : a % 16 = b % 16 :=
    hexDigitUpper_inj _ (by omega) _ (by omega) h2
  omega

/-- The uppercase hexadecimal rendering is injective on byte slices. -/
theorem hexBytesUpper_inj : ∀ xs ys : List Nat, (∀ b ∈ xs, b < 256) →
    (∀ b ∈ ys, b < 256) → hexBytesUpper xs = hexBytesUpper ys → xs = ys := by
  intro xs
  induction xs with
  | nil =>
    intro ys _ _ h
    cases ys with
    | nil => rfl
    | cons y ys => simp [hexBytesUpper, hexByteUpper] at h
  | cons x xs ih =>
    intro ys hxs hys h
    cases ys with
    | nil => simp [hexBytesUpper, hexByteUpper] at h
    | cons y ys =>
      simp only [hexBytesUpper, hexByteUpper, List.cons_append, List.nil_append,
        List.cons.injEq] at h
      obtain ⟨h1, h2, h3⟩ := h
      have hx : x = y := by
        refine hexByteUpper_inj x y (hxs x (by simp)) (hys y (by simp)) ?_
        simp [hexByteUpper, h1, h2]
      subst hx
      have ht : xs = ys :=
        ih ys (fun b hb => hxs b (by simp [hb])) (fun b hb => hys b (by simp [hb])) h3
      rw [ht]

/-- The `%X` rendering of a byte slice is injective on byte slices. -/
theorem sprintfX_inj (xs ys : List Nat) (hxs : ∀ b ∈ xs, b < 256)
    (hys : ∀ b ∈ ys, b < 256) (h : sprintfX xs = sprintfX ys) : xs = ys :=
  hexBytesUpper_inj xs ys hxs hys (congrArg String.data h)

/-- The `%X` rendering is two characters per byte. -/
theorem hexBytesUpper_length : ∀ bs : List Nat,
    (hexBytesUpper bs).length = 2 * bs.length := by
  intro bs
  induction bs with
  | nil => rfl
  | cons b bs ih =>
    simp [hexBytesUpper, hexByteUpper, ih]
    omega

/-- C1: the claim says the run terminates — workers return, the collection
loop over the results queue terminates, and the ResultSet holds one entry per
input name.  The code contradicts this: `t.results` is never closed, so the
`for r := range t.results` loop in `main` cannot terminate.  Evaluated at the
two-name input "a\nb" with one worker: the run leaves exactly 2 combined
results buffered in a results channel that is still open, and the range loop
over that channel blocks forever (`rangeDrain` yields no value). -/
theorem C1_collection_loop_blocks :
    ∃ ch : Channel result,
      runModel (fun _ => demoNameEnv) 1 (loadNames "a\nb") = some ch ∧
      (loadNames "a\nb").length = 2 ∧
      ch.buf.length = 2 ∧
      ch.closed = false ∧
      rangeDrain ch = none := by
  exact ⟨_, rfl, rfl, rfl, rfl, rfl⟩

/-- C2 counterexample: a probe whose resolution succeeds and whose HTTP round
trip then fails returns an outcome with BOTH a non-empty `Error` and a
non-empty `IP`, refuting "an outcome never has both a non-empty Error and a
non-empty IP". -/
theorem C2_counterexample_both_nonempty :
    (processName envConnRefused true).Error = "connection refused" ∧
    (processName envConnRefused true).IP = "93.184.216.34" ∧
    ¬((processName envConnRefused true).Error = "" ∨
      (processName envConnRefused true).IP = "") := by
  decide

/-- C2 (amended): immediately after the resolution step exactly one of
{error set and IP empty, IP set and error empty} holds; and the returned
outcome never has Error and IP both empty — but both may be non-empty when a
post-resolution step fails. -/
theorem C2_resolution_exclusive (env : ProbeEnv) (g : Bool)
    (hwf : env.wf = true) :
    (((resolutionPhase env).Error ≠ "" ∧ (resolutionPhase env).IP = "") ∨
      ((resolutionPhase env).Error = "" ∧ (resolutionPhase env).IP ≠ "")) ∧
    ¬((processName env g).Error = "" ∧ (processName env g).IP = "") := by
  have hex : errNonemptyB env.exchange = true := by
    simp only [ProbeEnv.wf, Bool.and_eq_true] at hwf
    exact hwf.1.1.1
  constructor
  · cases hx : env.exchange with
    | error e =>
      have he : e ≠ "" := errNonemptyB_error hex hx
      left
      constructor
      · simpa [resolutionPhase, hx, basicResult.init] using he
      · simp [resolutionPhase, hx, basicResult.init]
    | ok resp =>
      by_cases hz : resp.Answer = []
      · left
        constructor <;> simp [resolutionPhase, hx, hz, basicResult.init]
      · by_cases hip : firstA resp.Answer = ""
        · left
          constructor <;>
            simp [resolutionPhase, hx, hip, basicResult.init,
              List.length_eq_zero, hz]
        · right
          constructor <;>
            simp [resolutionPhase, hx, hip, basicResult.init,
              List.length_eq_zero, hz]
  · rintro ⟨hE, hIP⟩
    cases hx : env.exchange with
    | error e =>
      have he : e ≠ "" := errNonemptyB_error hex hx
      rw [processName_exchange_error env g e hx] at hE
      exact he hE
    | ok resp =>
      by_cases hz : resp.Answer = []
      · rw [processName_no_answers env g resp hx hz] at hE
        simp at hE
      · by_cases hip : firstA resp.Answer = ""
        · rw [processName_malformed env g resp hx hz hip] at hE
          simp at hE
        · rw [processName_IP_success env g resp hx hip] at hIP
          exact hip hIP

theorem C2_resolution_exclusive_witness :
    (((resolutionPhase dnsFailEnv).Error ≠ "" ∧
        (resolutionPhase dnsFailEnv).IP = "") ∨
      ((resolutionPhase dnsFailEnv).Error = "" ∧
        (resolutionPhase dnsFailEnv).IP ≠ "")) ∧
    ¬((processName dnsFailEnv true).Error = "" ∧
        (processName dnsFailEnv true).IP = "") :=
  C2_resolution_exclusive dnsFailEnv true (by decide)

/-- C3 counterexample: the error strings the code stores are
"No addresses found" and "Malformed DNS response", not the claimed
"no addresses found" / "malformed response". -/
theorem C3_counterexample_error_strings :
    (processName envNoAnswers false).Error = "No addresses found" ∧
    "No addresses found" ≠ "no addresses found" ∧
    (processName envNoARecords false).Error = "Malformed DNS response" ∧
    "Malformed DNS response" ≠ "malformed response" := by
  decide

/-- C3 (amended): zero answers yield Error = "No addresses found"; answers
with no A record yield Error = "Malformed DNS response"; otherwise IP is the
address of the first A record in answer order (first-match policy), assuming
A-record addresses never render as the empty string. -/
theorem C3_answer_policy (env : ProbeEnv) (g : Bool) (resp : DnsMsg)
    (hx : env.exchange = Except.ok resp)
    (hwf : answersWF resp.Answer = true) :
    (resp.Answer = [] → (processName env g).Error = "No addresses found") ∧
    ((resp.Answer ≠ [] ∧ ∀ r ∈ resp.Answer, ∀ a, r ≠ RR.A a) →
      (processName env g).Error = "Malformed DNS response") ∧
    (∀ pre a post, resp.Answer = pre ++ RR.A a :: post →
      (∀ r ∈ pre, ∀ b, r ≠ RR.A b) → (processName env g).IP = a) := by
  refine ⟨?_, ?_, ?_⟩
  · intro hz
    rw [processName_no_answers env g resp hx hz]
  · rintro ⟨hnz, hnoA⟩
    rw [processName_malformed env g resp hx hnz (firstA_no_A _ hnoA)]
  · intro pre a post hsplit hpre
    have hfa : firstA resp.Answer = a := by
      rw [hsplit]
      exact firstA_first_match pre a post hpre
    have hane : a ≠ "" := answersWF_addr_ne hwf (by rw [hsplit]; simp)
    rw [processName_IP_success env g resp hx (by rw [hfa]; exact hane), hfa]

theorem C3_answer_policy_witness :
    (processName envNoAnswers false).Error = "No addresses found" ∧
    (processName envNoARecords false).Error = "Malformed DNS response" :=
  ⟨(C3_answer_policy envNoAnswers false { Answer := [] } rfl (by decide)).1 rfl,
   (C3_answer_policy envNoARecords false { Answer := [RR.other] } rfl
       (by decide)).2.1
     ⟨by decide, by
        intro r hr b
        rw [List.mem_singleton] at hr
        subst hr
        exact fun hc => RR.noConfusion hc⟩⟩

/-- C4: two distinct tor-path probes build their dialers from distinct
invocations of the random source; whenever those invocations return distinct
byte strings (crypto randomness modelled as a tape of draws), the resulting
SOCKS5 credential pairs differ — no dialer or credential pair is shared. -/
theorem C4_fresh_credentials_no_reuse (tape : Nat → List Nat) (i j : Nat)
    (hij : i ≠ j) (hdraw : tape i ≠ tape j)
    (hi : ∀ b ∈ tape i, b < 256) (hj : ∀ b ∈ tape j, b < 256) :
    ∃ di dj, probeDialer tape i = some di ∧ probeDialer tape j = some dj ∧
      di.auth ≠ dj.auth := by
  refine ⟨_, _, rfl, rfl, ?_⟩
  intro hauth
  exact hdraw (sprintfX_inj _ _ hi hj (congrArg CredPair.user hauth))

/-- A concrete two-draw random tape: sixteen bytes, differing in the last. -/
def demoTape : Nat → List Nat := fun k => List.replicate 15 0 ++ [k]

theorem C4_fresh_credentials_no_reuse_witness :
    ∃ di dj, probeDialer demoTape 0 = some di ∧ probeDialer demoTape 1 = some dj ∧
      di.auth ≠ dj.auth :=
  C4_fresh_credentials_no_reuse demoTape 0 1 (by decide) (by decide)
    (by decide) (by decide)

/-- C5: the probe is a total function into populated outcomes — it never
propagates an error to its caller — and the first failing step
short-circuits every later step: a DNS failure leaves connection timing,
page, and IP at their zero values; a request-construction failure leaves
connection timing and page untouched; an HTTP failure leaves the page empty.
A failed probe differs from a successful one only in its `Error` field. -/
theorem C5_total_short_circuit (env : ProbeEnv) (g : Bool) :
    (∀ e, env.exchange = Except.error e →
      processName env g =
        { LookupTook := env.lookupDur, HTTPConnectionTook := 0,
          Error := e, Page := "", IP := "" }) ∧
    (∀ resp, env.exchange = Except.ok resp → resp.Answer = [] →
      processName env g =
        { LookupTook := env.lookupDur, HTTPConnectionTook := 0,
          Error := "No addresses found", Page := "", IP := "" }) ∧
    (∀ resp, env.exchange = Except.ok resp → resp.Answer ≠ [] →
      firstA resp.Answer = "" →
      processName env g =
        { LookupTook := env.lookupDur, HTTPConnectionTook := 0,
          Error := "Malformed DNS response", Page := "", IP := "" }) ∧
    (∀ resp e, env.exchange = Except.ok resp → firstA resp.Answer ≠ "" →
      env.newRequest = Except.error e →
      processName env g =
        { LookupTook := env.lookupDur, HTTPConnectionTook := 0,
          Error := e, Page := "", IP := firstA resp.Answer }) ∧
    (∀ resp e, env.exchange = Except.ok resp → firstA resp.Answer ≠ "" →
      env.newRequest = Except.ok () → env.doResult = Except.error e →
      processName env g =
        { LookupTook := env.lookupDur, HTTPConnectionTook := env.connDur,
          Error := e, Page := "", IP := firstA resp.Answer }) := by
  refine ⟨?_, ?_, ?_, ?_, ?_⟩
  · intro e hx
    exact processName_exchange_error env g e hx
  · intro resp hx hz
    exact processName_no_answers env g resp hx hz
  · intro resp hx hnz hip
    exact processName_malformed env g resp hx hnz hip
  · intro resp e hx hip hr
    exact processName_newRequest_error env g resp e hx hip hr
  · intro resp e hx hip hreq hdo
    exact processName_do_error env g resp e hx hip hreq hdo

theorem C5_total_short_circuit_witness :
    processName dnsFailEnv true =
      { LookupTook := 1, HTTPConnectionTook := 0,
        Error := "read tcp 8.8.8.8:53: i/o timeout", Page := "", IP := "" } :=
  (C5_total_short_circuit dnsFailEnv true).1 "read tcp 8.8.8.8:53: i/o timeout" rfl

/-- C6: the coordinator requests page capture only for the tor path — it
launches the plain probe with `grabPage = false` and the tor probe with
`grabPage = true` — a probe run without capture never stores a page body, and
on the tor path a fully successful fetch stores the body that was read. -/
theorem C6_page_capture_asymmetry (env : NameEnv) (name : String) (r : result)
    (h : tester.process env name = some r) :
    r.Plain = some (processName env.plainEnv false) ∧
    r.Tor = some (processName env.torEnv true) ∧
    (∀ e : ProbeEnv, (processName e false).Page = "") ∧
    (∀ resp body, env.torEnv.exchange = Except.ok resp →
      firstA resp.Answer ≠ "" → env.torEnv.newRequest = Except.ok () →
      env.torEnv.doResult = Except.ok () → env.torEnv.readAll = (body, none) →
      (processName env.torEnv true).Page = body) := by
  unfold tester.process at h
  cases hd : newDialer { src := fun _ => env.randRead, socksErr := env.socksErr } with
  | none =>
    rw [hd] at h
    exact Option.noConfusion h
  | some d =>
    rw [hd] at h
    have hr := Option.some.inj h
    subst hr
    refine ⟨rfl, rfl, processName_false_Page, ?_⟩
    intro resp body hx hip hreq hdo hread
    rw [processName_ok_page env.torEnv resp body none hx hip hreq hdo hread]

/-- A per-name environment in which both probes fully succeed. -/
def okNameEnv : NameEnv :=
  { plainEnv := { exchange := Except.ok { Answer := [RR.A "10.0.0.1"] },
                  lookupDur := 4, newRequest := Except.ok (),
                  doResult := Except.ok (), connDur := 6,
                  readAll := ("hello", none) },
    torEnv := { exchange := Except.ok { Answer := [RR.A "10.0.0.2"] },
                lookupDur := 5, newRequest := Except.ok (),
                doResult := Except.ok (), connDur := 7,
                readAll := ("<html>", none) },
    randRead := Except.ok (List.replicate 16 255), socksErr := none }

theorem C6_page_capture_asymmetry_witness :
    ∃ r, tester.process okNameEnv "example.com" = some r ∧
      r.Plain = some (processName okNameEnv.plainEnv false) ∧
      (processName okNameEnv.plainEnv false).Page = "" ∧
      (processName okNameEnv.torEnv true).Page = "<html>" := by
  refine ⟨_, rfl, ?_, ?_, ?_⟩
  · exact (C6_page_capture_asymmetry okNameEnv "example.com" _ rfl).1
  · exact (C6_page_capture_asymmetry okNameEnv "example.com" _ rfl).2.2.1
      okNameEnv.plainEnv
  · exact (C6_page_capture_asymmetry okNameEnv "example.com" _ rfl).2.2.2
      { Answer := [RR.A "10.0.0.2"] } "<html>" rfl (by decide) rfl rfl rfl

/-- C7: when the coordinator returns a combined result, both the plain and
tor outcome pointers are set — each path always produces an outcome object,
failure being a populated error field, never a missing outcome. -/
theorem C7_join_both_outcomes (env : NameEnv) (name : String) (r : result)
    (h : tester.process env name = some r) :
    r.Plain.isSome = true ∧ r.Tor.isSome = true := by
  unfold tester.process at h
  cases hd : newDialer { src := fun _ => env.randRead, socksErr := env.socksErr } with
  | none =>
    rw [hd] at h
    exact Option.noConfusion h
  | some d =>
    rw [hd] at h
    have hr := Option.some.inj h
    subst hr
    exact ⟨rfl, rfl⟩

theorem C7_join_both_outcomes_witness :
    ∃ r, tester.process demoNameEnv "example.com" = some r ∧
      r.Plain.isSome = true ∧ r.Tor.isSome = true :=
  ⟨_, rfl, C7_join_both_outcomes demoNameEnv "example.com" _ rfl⟩

/-- C8: `newDialer` asks the random source for 16 bytes, hex-encodes them
with `%X` (so the encoded identity is 32 characters when the read fills the
buffer), uses the encoding as both username and password of a SOCKS5 dialer
bound to 127.0.0.1:9150 over tcp with a 10 second dial timeout, and panics —
yielding no dialer at all, rather than an error value — when the random read
or the SOCKS5 construction fails. -/
theorem C8_dialer_factory_contract (env : DialerEnv) :
    (∀ bs, env.src 16 = Except.ok bs → env.socksErr = none →
      newDialer env =
        some { network := "tcp", addr := "127.0.0.1:9150",
               auth := { user := sprintfX bs, password := sprintfX bs },
               timeoutSeconds := 10 }) ∧
    (∀ bs : List Nat, bs.length = 16 → (sprintfX bs).length = 32) ∧
    (∀ e, env.src 16 = Except.error e → newDialer env = none) ∧
    (∀ e, env.socksErr = some e → newDialer env = none) := by
  refine ⟨?_, ?_, ?_, ?_⟩
  · intro bs hb hs
    unfold newDialer randomString
    rw [hb, hs]
  · intro bs hlen
    show (hexBytesUpper bs).length = 32
    rw [hexBytesUpper_length, hlen]
  · intro e he
    unfold newDialer randomString
    rw [he]
  · intro e he
    unfold newDialer randomString
    cases hsrc : env.src 16 with
    | error e2 => rfl
    | ok bs => rw [he]

theorem C8_dialer_factory_contract_witness :
    newDialer demoDialerEnv =
      some { network := "tcp", addr := "127.0.0.1:9150",
             auth := { user := sprintfX (List.replicate 16 0),
                       password := sprintfX (List.replicate 16 0) },
             timeoutSeconds := 10 } ∧
    (sprintfX (List.replicate 16 0)).length = 32 :=
  ⟨(C8_dialer_factory_contract demoDialerEnv).1 (List.replicate 16 0) rfl rfl,
   (C8_dialer_factory_contract demoDialerEnv).2.1 (List.replicate 16 0) rfl⟩

/-- C9: when the body read fails after a successful resolve, request build
and fetch, the outcome's error is the read error while `LookupTook`,
`HTTPConnectionTook` and `IP` keep the values collected before the read (and
the bytes read so far are kept in the page field). -/
theorem C9_read_failure_keeps_fields (env : ProbeEnv) (resp : DnsMsg)
    (body e : String) (hx : env.exchange = Except.ok resp)
    (hip : firstA resp.Answer ≠ "") (hreq : env.newRequest = Except.ok ())
    (hdo : env.doResult = Except.ok ()) (hread : env.readAll = (body, some e)) :
    processName env true =
      { LookupTook := env.lookupDur, HTTPConnectionTook := env.connDur,
        Error := e, Page := body, IP := firstA resp.Answer } := by
  simpa using processName_ok_page env resp body (some e) hx hip hreq hdo hread

theorem C9_read_failure_keeps_fields_witness :
    processName readFailEnv true =
      { LookupTook := 2, HTTPConnectionTook := 9, Error := "unexpected EOF",
        Page := "partial", IP := "10.0.0.1" } :=
  C9_read_failure_keeps_fields readFailEnv { Answer := [RR.A "10.0.0.1"] }
    "partial" "unexpected EOF" rfl (by decide) rfl rfl rfl

/-- C10: the names file is split on the newline character with no filtering
or trimming: the queue receives exactly the split segments — one more than
the number of newline characters, duplicates and empty strings included, with
a trailing newline contributing a final empty name. -/
theorem C10_newline_split_enqueue (contents : String) :
    (loadAndFill contents).closed = true ∧
    (loadAndFill contents).buf = loadNames contents ∧
    (loadAndFill contents).buf.length = contents.data.count '\n' + 1 ∧
    (∀ l : List Char, contents.data = l ++ ['\n'] →
      (loadAndFill contents).buf.getLast? = some "") := by
  refine ⟨rfl, rfl, ?_, ?_⟩
  · show (loadNames contents).length = _
    unfold loadNames
    rw [List.length_map, splitNl_length]
  · intro l hl
    show (loadNames contents).getLast? = some ""
    unfold loadNames
    rw [hl, splitNl_append_newline, List.map_append]
    exact getLast_append_single _ _

theorem C10_newline_split_enqueue_witness :
    (loadAndFill "a\nb\n").buf.length = "a\nb\n".data.count '\n' + 1 ∧
    (loadAndFill "a\nb\n").buf.getLast? = some "" :=
  ⟨(C10_newline_split_enqueue "a\nb\n").2.2.1,
   (C10_newline_split_enqueue "a\nb\n").2.2.2 ['a', '\n', 'b'] rfl⟩
